import Mathlib

/-!
Shallow embedding of the tenant-isolation core of the multi-tenant
restaurant backend: the RLS policy migration, the tenant session binder,
the authentication middleware, the restaurant activation service and the
platform bootstrap procedure, together with theorems settling the frozen
claims about them.
-/

/-- PostgreSQL session state relevant to the RLS policies: the two session
variables set by the tenant binder. A value of none models an unset
variable, for which current_setting with missing_ok = true returns NULL. -/
structure Session where
  appCurrentRestaurant : Option Int
  appCurrentRole : Option String
deriving DecidableEq

/-- The two distinct policy conditions appearing in the policies map of
CreateRLSPolicies.Up (007_create_rls_policies.go): plain tenant equality,
and tenant equality OR the platform-sentinel clause used for users. -/
inductive RLSCond where
  | tenantOnly
  | tenantOrPlatform
deriving DecidableEq

/-- The policies map of CreateRLSPolicies.Up, table by table, with the
condition string of each table represented by its RLSCond form. -/
def rlsPolicies : List (String × RLSCond) :=
  [("users", RLSCond.tenantOrPlatform),
   ("menu_categories", RLSCond.tenantOnly),
   ("menu_items", RLSCond.tenantOnly),
   ("menu_item_images", RLSCond.tenantOnly),
   ("reservations", RLSCond.tenantOnly),
   ("orders", RLSCond.tenantOnly),
   ("order_items", RLSCond.tenantOnly)]

/-- A policy as installed by the CREATE POLICY statement of
CreateRLSPolicies.Up, which passes the same condition for USING and for
WITH CHECK. -/
structure CreatedPolicy where
  table : String
  usingCond : RLSCond
  withCheckCond : RLSCond
deriving DecidableEq

/-- The policies installed by CreateRLSPolicies.Up: one per table of the
policies map, with USING and WITH CHECK both set to the map condition. -/
def createdPolicies : List CreatedPolicy :=
  rlsPolicies.map (fun p => { table := p.1, usingCond := p.2, withCheckCond := p.2 })

/-- Role list of the IN clause of the users policy condition. -/
def allowedPlatformRoles : List String := ["KAM", "Admin"]

/-- PlatformOrganizationID from models/restaurant.go: the reserved
platform sentinel tenant id. -/
def platformOrganizationID : Int := 1

/-- SQL evaluation of the subterm restaurant_id = current_setting with
missing_ok = true cast to INTEGER: an unset variable yields NULL and the
comparison is then not true. -/
def evalCurrentRestaurantEq (rid : Int) (s : Session) : Bool :=
  match s.appCurrentRestaurant with
  | some x => rid == x
  | none => false

/-- SQL evaluation of the subterm current_setting of the role variable IN
the allowed roles: an unset variable yields NULL and IN is then not true. -/
def evalPlatformRoleIn (s : Session) : Bool :=
  match s.appCurrentRole with
  | some r => allowedPlatformRoles.contains r
  | none => false

/-- SQL evaluation of a policy condition on a row with the given
restaurant_id under the given session. -/
def evalRLSCond : RLSCond → Int → Session → Bool
  | RLSCond.tenantOnly, rid, s => evalCurrentRestaurantEq rid s
  | RLSCond.tenantOrPlatform, rid, s =>
      evalCurrentRestaurantEq rid s ||
        (rid == platformOrganizationID && evalPlatformRoleIn s)

/-- C1 counterexample: the claim that every table of the RLS migration gets
the sentinel-OR predicate as both USING and WITH CHECK is false: the
menu_categories policy (and every non-users policy) carries the plain
tenant-equality condition. -/
theorem rls_policy_form_counterexample :
    ¬ (∀ p ∈ createdPolicies,
        p.usingCond = RLSCond.tenantOrPlatform ∧
        p.withCheckCond = RLSCond.tenantOrPlatform) := by
  decide

/-- C1 (amended): every policy installed by CreateRLSPolicies.Up has
identical USING and WITH CHECK conditions; the users policy carries the
sentinel-OR form and every other table carries plain tenant equality. -/
theorem rls_policy_using_withcheck_amended :
    (∀ p ∈ createdPolicies, p.usingCond = p.withCheckCond) ∧
    (∀ p ∈ createdPolicies,
      p.usingCond = (if p.table = "users" then RLSCond.tenantOrPlatform
                     else RLSCond.tenantOnly)) := by
  decide

/-- C1 witness: the amended theorem applied to the users policy, a
concrete member of the created policy list. -/
theorem rls_policy_using_withcheck_amended_witness :
    ({ table := "users", usingCond := RLSCond.tenantOrPlatform,
       withCheckCond := RLSCond.tenantOrPlatform } : CreatedPolicy).usingCond =
    ({ table := "users", usingCond := RLSCond.tenantOrPlatform,
       withCheckCond := RLSCond.tenantOrPlatform } : CreatedPolicy).withCheckCond :=
  rls_policy_using_withcheck_amended.1 _ (by decide)

/-- C2: soundness of every policy condition of the migration: whenever a
condition evaluates to true on a row under a session bound to restaurant
X, the row belongs to X, or it belongs to the platform sentinel and the
session role is one of the allowed platform roles. -/
theorem rls_predicate_sound (tbl : String) (cond : RLSCond) (rid x : Int)
    (role : Option String)
    (hmem : (tbl, cond) ∈ rlsPolicies)
    (h : evalRLSCond cond rid { appCurrentRestaurant := some x, appCurrentRole := role } = true) :
    rid = x ∨ (rid = platformOrganizationID ∧
      ∃ r, role = some r ∧ r ∈ allowedPlatformRoles) := by
  cases cond with
  | tenantOnly =>
      left
      simpa [evalRLSCond, evalCurrentRestaurantEq] using h
  | tenantOrPlatform =>
      simp only [evalRLSCond, evalCurrentRestaurantEq, Bool.or_eq_true,
        Bool.and_eq_true, beq_iff_eq] at h
      rcases h with h | ⟨h1, h2⟩
      · exact Or.inl h
      · refine Or.inr ⟨h1, ?_⟩
        cases hrole : role with
        | none => rw [hrole] at h2; simp [evalPlatformRoleIn] at h2
        | some r =>
            refine ⟨r, rfl, ?_⟩
            rw [hrole] at h2
            rw [evalPlatformRoleIn] at h2
            simp only [List.contains, List.elem_eq_mem, decide_eq_true_eq] at h2
            exact h2

/-- C2 witness: the soundness theorem applied to the users policy at a
concrete platform-staff row and session. -/
theorem rls_predicate_sound_witness :
    (1 : Int) = 5 ∨ ((1 : Int) = platformOrganizationID ∧
      ∃ r, (some "KAM" : Option String) = some r ∧ r ∈ allowedPlatformRoles) :=
  rls_predicate_sound "users" RLSCond.tenantOrPlatform 1 5 (some "KAM")
    (by decide) (by decide)

/-- A menu item row as far as RLS and the menu item handler observe it:
primary key, owning tenant, and the row payload. -/
structure MenuItem where
  id : Nat
  restaurantID : Int
  name : String
deriving DecidableEq

/-- Rows of the menu_items table visible under RLS for a given session:
the database engine filters every row through the tenant-only policy
condition of the menu_items policy. -/
def visibleMenuItems (items : List MenuItem) (s : Session) : List MenuItem :=
  items.filter (fun it => evalRLSCond RLSCond.tenantOnly it.restaurantID s)

/-- MenuItemRepository.GetByID: a primary-key First over the RLS-filtered
menu_items table; a row invisible to the session is indistinguishable from
an absent row. -/
def menuItemGetByID (items : List MenuItem) (s : Session) (id : Nat) :
    Except String MenuItem :=
  match (visibleMenuItems items s).find? (fun it => it.id == id) with
  | some it => Except.ok it
  | none => Except.error "record not found"

/-- HTTP response produced by MenuItemHandler.GetMenuItem: either the row
with status 200, or an error object carrying a status code and message. -/
inductive MenuItemResponse where
  | ok (status : Nat) (item : MenuItem)
  | err (status : Nat) (msg : String)
deriving DecidableEq

/-- MenuItemHandler.GetMenuItem: fetch through the repository and report
any lookup failure as 404 with a fixed error message. -/
def getMenuItemHandler (items : List MenuItem) (s : Session) (id : Nat) :
    MenuItemResponse :=
  match menuItemGetByID items s id with
  | Except.ok it => MenuItemResponse.ok 200 it
  | Except.error _ => MenuItemResponse.err 404 "menu item not found"

/-- C9: a request bound to tenant x that fetches a menu item owned only by
other tenants receives the fixed 404 not-found response: no forbidden
status and no row data in the payload. -/
theorem getMenuItem_cross_tenant_not_found (items : List MenuItem)
    (x : Int) (role : Option String) (id : Nat)
    (hforeign : ∀ it ∈ items, it.id = id → it.restaurantID ≠ x) :
    getMenuItemHandler items
      { appCurrentRestaurant := some x, appCurrentRole := role } id =
    MenuItemResponse.err 404 "menu item not found" := by
  have hnone : (visibleMenuItems items
      { appCurrentRestaurant := some x, appCurrentRole := role }).find?
      (fun it => it.id == id) = none := by
    rw [List.find?_eq_none]
    intro it hmem
    rcases List.mem_filter.mp hmem with ⟨hin, hvis⟩
    simp only [evalRLSCond, evalCurrentRestaurantEq, beq_iff_eq] at hvis
    simp only [beq_iff_eq]
    intro hid
    exact hforeign it hin hid hvis
  simp [getMenuItemHandler, menuItemGetByID, hnone]

/-- C9 witness: the cross-tenant fetch theorem at the concrete scenario of
the spec: a token for restaurant 5 fetching menu item 42 owned by
restaurant 7. -/
theorem getMenuItem_cross_tenant_not_found_witness :
    getMenuItemHandler [{ id := 42, restaurantID := 7, name := "carbonara" }]
      { appCurrentRestaurant := some 5, appCurrentRole := some "Admin" } 42 =
    MenuItemResponse.err 404 "menu item not found" :=
  getMenuItem_cross_tenant_not_found
    [{ id := 42, restaurantID := 7, name := "carbonara" }] 5 (some "Admin") 42
    (by decide)

/-- Pooled connection update: db.Exec on the gorm handle draws connection
k from the pool, runs the statement there, and returns it; a SET statement
is session scoped, so the assignment stays on that connection afterwards.
This models the connection-pool semantics of database/sql under gorm. -/
def poolExec (pool : List Session) (k : Nat) (f : Session → Session) :
    List Session :=
  match pool[k]? with
  | some s => pool.set k (f s)
  | none => pool

/-- SetTenantContext middleware: issues SET app.current_restaurant and SET
app.current_user_role through the pooled db handle. Each Exec runs on
whichever connection the pool hands out at that moment (kRestaurant and
kRole); nothing pins the two statements or the later queries of the
request to one physical connection. -/
def setTenantContext (pool : List Session) (kRestaurant kRole : Nat)
    (restaurantID : Int) (role : String) : List Session :=
  poolExec
    (poolExec pool kRestaurant
      (fun s => { s with appCurrentRestaurant := some restaurantID }))
    kRole (fun s => { s with appCurrentRole := some role })

/-- A tenant-scoped query later in the request: the pool hands out
connection k, and the database filters the rows through the RLS policy
against the session state of that very connection. -/
def runTenantQuery (pool : List Session) (k : Nat) (items : List MenuItem) :
    List MenuItem :=
  match pool[k]? with
  | some s => visibleMenuItems items s
  | none => []

/-- Initial two-connection pool with no session variables set. -/
def freshPool : List Session :=
  [{ appCurrentRestaurant := none, appCurrentRole := none },
   { appCurrentRestaurant := none, appCurrentRole := none }]

/-- Tenant 5 rows present in the menu_items table of the leak scenario. -/
def tenantFiveRows : List MenuItem :=
  [{ id := 10, restaurantID := 5, name := "house special" }]

/-- C3: the leak the claim rules out is reachable. Request R1 binds tenant
5 and its binding lands on connection 0; request R2 binds tenant 7 but the
pool runs its SET statements on connection 1, and R2 subsequently queries
over connection 0, which still carries the session-scoped binding of R1.
R2 then observes the tenant 5 rows, none of which belong to tenant 7. -/
theorem setTenantContext_pool_leak :
    runTenantQuery
      (setTenantContext (setTenantContext freshPool 0 0 5 "Admin") 1 1 7 "Admin")
      0 tenantFiveRows = tenantFiveRows ∧
    tenantFiveRows ≠ [] ∧
    tenantFiveRows.all (fun it => it.restaurantID != 7) = true := by
  decide

/-- RestaurantStatus from models/restaurant.go. -/
inductive RestaurantStatus where
  | pending
  | active
  | inactive
  | suspended
deriving DecidableEq

/-- The status strings accepted by the UpdateRestaurantStatus handler,
mapped to RestaurantStatus; any other string is invalid. -/
def parseRestaurantStatus (s : String) : Option RestaurantStatus :=
  if s = "pending" then some RestaurantStatus.pending
  else if s = "active" then some RestaurantStatus.active
  else if s = "inactive" then some RestaurantStatus.inactive
  else if s = "suspended" then some RestaurantStatus.suspended
  else none

/-- A restaurant row, restricted to the fields read or written by the
registration, activation, status and bootstrap code paths. -/
structure Restaurant where
  id : Nat
  name : String
  email : String
  status : RestaurantStatus
  kamID : Option Nat
  activatedBy : Option Nat
  contactName : String
  contactEmail : String
deriving DecidableEq

/-- A user row, restricted to the fields read or written by the
activation, bootstrap and authentication code paths. -/
structure User where
  id : Nat
  restaurantID : Nat
  email : String
  passwordHash : String
  role : String
  isActive : Bool
deriving DecidableEq

/-- Database state seen by the service layer: the restaurants and users
tables. The service-layer repositories address these tables directly; the
claims about them are claims about the service logic, not about RLS. -/
structure DBState where
  restaurants : List Restaurant
  users : List User
deriving DecidableEq

/-- RestaurantRepository.GetByID: primary-key lookup. -/
def getRestaurantByID (db : DBState) (rid : Nat) : Option Restaurant :=
  db.restaurants.find? (fun r => r.id == rid)

/-- UserRepository.GetByID: primary-key lookup. -/
def getUserByID (db : DBState) (uid : Nat) : Option User :=
  db.users.find? (fun u => u.id == uid)

/-- UserRepository.GetByEmail: lookup by email and restaurant id. -/
def getUserByEmail (db : DBState) (email : String) (rid : Nat) : Option User :=
  db.users.find? (fun u => u.email == email && u.restaurantID == rid)

/-- Fresh primary key handed out by the database for an inserted user. -/
def nextUserID (db : DBState) : Nat :=
  (db.users.map User.id).foldr Nat.max 0 + 1

/-- UserRepository.Create: insert of a user row with a fresh id. -/
def createUser (db : DBState) (u : User) : DBState :=
  { db with users := db.users ++ [u] }

/-- RestaurantRepository.Update: save of a restaurant row under its
primary key. -/
def updateRestaurant (db : DBState) (r : Restaurant) : DBState :=
  { db with restaurants :=
      db.restaurants.map (fun x => if x.id == r.id then r else x) }

/-- RestaurantService.ActivateRestaurant: fetch the restaurant, reject if
already active, require the activating user to exist with role KAM,
reject if a user under the contact email already exists for the
restaurant, insert the admin user, then save the restaurant as active
with activated_by set and the KAM assigned when none was. The bcrypt hash
of the generated temporary password enters as hashedPassword. -/
def activateRestaurant (db : DBState) (restaurantID activatedBy : Nat)
    (hashedPassword : String) : Except String DBState :=
  match getRestaurantByID db restaurantID with
  | none => Except.error "restaurant not found"
  | some restaurant =>
    if restaurant.status = RestaurantStatus.active then
      Except.error "restaurant is already active"
    else
      match getUserByID db activatedBy with
      | none => Except.error "only KAM users can activate restaurants"
      | some activatingUser =>
        if activatingUser.role ≠ "KAM" then
          Except.error "only KAM users can activate restaurants"
        else
          match getUserByEmail db restaurant.contactEmail restaurant.id with
          | some _ => Except.error "admin user already exists for this restaurant"
          | none =>
            let adminUser : User :=
              { id := nextUserID db
                restaurantID := restaurant.id
                email := restaurant.contactEmail
                passwordHash := hashedPassword
                role := "Admin"
                isActive := true }
            let db1 := createUser db adminUser
            let restaurant1 :=
              { restaurant with
                  status := RestaurantStatus.active
                  activatedBy := some activatedBy
                  kamID := if restaurant.kamID = none then some activatedBy
                           else restaurant.kamID }
            Except.ok (updateRestaurant db1 restaurant1)

/-- RestaurantService.UpdateRestaurantStatus: fetch the restaurant and
save it with the requested status, nothing else. -/
def updateRestaurantStatusService (db : DBState) (rid : Nat)
    (status : RestaurantStatus) : Except String DBState :=
  match getRestaurantByID db rid with
  | none => Except.error "restaurant not found"
  | some r => Except.ok (updateRestaurant db { r with status := status })

/-- HTTP outcome of a restaurant handler: status code, error message when
any, and the database state after the call. -/
structure HandlerOutcome where
  status : Nat
  errorMsg : Option String
  db : DBState
deriving DecidableEq

/-- RestaurantHandler.ActivateRestaurant: run the service call and map its
error strings to HTTP codes: not found 404, non-KAM actor 403, already
active 409, anything else 400; success 200. -/
def activateRestaurantHandler (db : DBState) (rid uid : Nat)
    (hashedPassword : String) : HandlerOutcome :=
  match activateRestaurant db rid uid hashedPassword with
  | Except.error e =>
      { status :=
          if e = "restaurant not found" then 404
          else if e = "only KAM users can activate restaurants" then 403
          else if e = "restaurant is already active" then 409
          else 400
        errorMsg := some e
        db := db }
  | Except.ok db1 => { status := 200, errorMsg := none, db := db1 }

/-- RestaurantHandler.UpdateRestaurantStatus: reject a status string
outside the four valid values with 400, otherwise run the service call. -/
def updateRestaurantStatusHandler (db : DBState) (rid : Nat)
    (statusStr : String) : HandlerOutcome :=
  match parseRestaurantStatus statusStr with
  | none => { status := 400, errorMsg := some "invalid status", db := db }
  | some st =>
      match updateRestaurantStatusService db rid st with
      | Except.error e => { status := 400, errorMsg := some e, db := db }
      | Except.ok db1 => { status := 200, errorMsg := none, db := db1 }

/-- Number of users of a restaurant carrying a given email, the count the
activation scenario speaks about. -/
def countUsersByEmail (db : DBState) (email : String) (rid : Nat) : Nat :=
  (db.users.filter (fun u => u.email == email && u.restaurantID == rid)).length

/-- Replacing, in a restaurant list, every row whose id matches the saved
row makes the primary-key search return the saved row, provided a row
under that id was found before. -/
theorem find_after_replace (l : List Restaurant) (rid : Nat)
    (r r1 : Restaurant)
    (hfind : l.find? (fun x => x.id == rid) = some r) (hid : r1.id = rid) :
    (l.map (fun x => if x.id == r1.id then r1 else x)).find?
      (fun x => x.id == rid) = some r1 := by
  induction l with
  | nil => simp at hfind
  | cons a t ih =>
      by_cases ha : a.id = rid
      · simp only [List.map_cons]
        have hfa : (if (a.id == r1.id) = true then r1 else a) = r1 := by
          simp [ha, hid]
        rw [hfa]
        exact List.find?_cons_of_pos _ (by simp [hid])
      · rw [List.find?_cons_of_neg _ (by simp [ha])] at hfind
        simp only [List.map_cons]
        have hfa : (if (a.id == r1.id) = true then r1 else a) = a := by
          simp [hid, ha]
        rw [hfa, List.find?_cons_of_neg _ (by simp [ha])]
        exact ih hfind

/-- Saving a restaurant row whose id matches the looked-up id makes the
primary-key lookup return the saved row. -/
theorem getRestaurantByID_updateRestaurant (db : DBState) (rid : Nat)
    (r r1 : Restaurant)
    (hfind : getRestaurantByID db rid = some r) (hid : r1.id = rid) :
    getRestaurantByID (updateRestaurant db r1) rid = some r1 :=
  find_after_replace db.restaurants rid r r1 hfind hid

/-- C4 counterexample data: a restaurant registered and still pending. -/
def pendingTrattoria : Restaurant :=
  { id := 2, name := "Trattoria Alba", email := "alba@example.com"
    status := RestaurantStatus.pending, kamID := none, activatedBy := none
    contactName := "Ann Lee", contactEmail := "ann@example.com" }

/-- C4 counterexample database: the pending restaurant and no users. -/
def dbPendingOnly : DBState :=
  { restaurants := [pendingTrattoria], users := [] }

/-- C4 counterexample: the UpdateRestaurantStatus endpoint, an operation
other than ActivateRestaurant, moves a pending restaurant straight to
active with HTTP 200 and provisions no admin user. -/
theorem updateRestaurantStatus_activates_counterexample :
    pendingTrattoria.status ≠ RestaurantStatus.active ∧
    parseRestaurantStatus "active" = some RestaurantStatus.active ∧
    updateRestaurantStatusHandler dbPendingOnly 2 "active" =
      { status := 200, errorMsg := none
        db := { restaurants := [{ pendingTrattoria with
                  status := RestaurantStatus.active }], users := [] } } := by
  decide

/-- C4 (amended): UpdateRestaurantStatus sets exactly the requested status
on the fetched restaurant, including active, with the user table
untouched: activation through ActivateRestaurant is the only operation
that also provisions an admin user, not the only path to active. -/
theorem updateRestaurantStatus_sets_status (db : DBState) (rid : Nat)
    (st : RestaurantStatus) (r : Restaurant)
    (hr : getRestaurantByID db rid = some r) :
    updateRestaurantStatusService db rid st =
      Except.ok (updateRestaurant db { r with status := st }) ∧
    (updateRestaurant db { r with status := st }).users = db.users ∧
    getRestaurantByID (updateRestaurant db { r with status := st }) rid =
      some { r with status := st } := by
  have hid : ({ r with status := st } : Restaurant).id = rid := by
    have := List.find?_some hr
    simpa using this
  refine ⟨?_, rfl, ?_⟩
  · simp [updateRestaurantStatusService, hr]
  · exact getRestaurantByID_updateRestaurant db rid r _ hr hid

/-- C4 witness for the amended theorem: the update applied to the concrete
pending restaurant with the suspended status. -/
theorem updateRestaurantStatus_sets_status_witness :
    updateRestaurantStatusService dbPendingOnly 2 RestaurantStatus.suspended =
      Except.ok (updateRestaurant dbPendingOnly
        { pendingTrattoria with status := RestaurantStatus.suspended }) ∧
    (updateRestaurant dbPendingOnly
      { pendingTrattoria with status := RestaurantStatus.suspended }).users =
      dbPendingOnly.users ∧
    getRestaurantByID (updateRestaurant dbPendingOnly
      { pendingTrattoria with status := RestaurantStatus.suspended }) 2 =
      some { pendingTrattoria with status := RestaurantStatus.suspended } :=
  updateRestaurantStatus_sets_status dbPendingOnly 2 RestaurantStatus.suspended
    pendingTrattoria (by decide)

/-- C5: a successful activation of a pending restaurant by a KAM leaves
the restaurant active, records the activating KAM in activated_by, keeps a
prior KAM assignment and otherwise assigns the activating KAM, and yields
exactly one user for the restaurant under its contact email, a freshly
created Admin. -/
theorem activateRestaurant_success_spec (db : DBState) (rid kid : Nat)
    (pw : String) (r : Restaurant) (k : User)
    (hr : getRestaurantByID db rid = some r)
    (hpend : r.status = RestaurantStatus.pending)
    (hk : getUserByID db kid = some k)
    (hkam : k.role = "KAM")
    (hnouser : getUserByEmail db r.contactEmail r.id = none) :
    ∃ db1, activateRestaurant db rid kid pw = Except.ok db1 ∧
      (∃ r1, getRestaurantByID db1 rid = some r1 ∧
        r1.status = RestaurantStatus.active ∧
        r1.activatedBy = some kid ∧
        r1.kamID = (if r.kamID = none then some kid else r.kamID)) ∧
      countUsersByEmail db r.contactEmail r.id = 0 ∧
      (∃ u, db1.users.filter
          (fun v => v.email == r.contactEmail && v.restaurantID == r.id) = [u] ∧
        u.role = "Admin" ∧ u.email = r.contactEmail ∧
        u.restaurantID = r.id ∧ u ∉ db.users) := by
  have hid : r.id = rid := by simpa using List.find?_some hr
  have hfilter0 : db.users.filter
      (fun v => v.email == r.contactEmail && v.restaurantID == r.id) = [] := by
    rw [List.filter_eq_nil_iff]
    rw [getUserByEmail, List.find?_eq_none] at hnouser
    exact hnouser
  refine ⟨updateRestaurant (createUser db
      { id := nextUserID db, restaurantID := r.id, email := r.contactEmail,
        passwordHash := pw, role := "Admin", isActive := true })
      { r with
          status := RestaurantStatus.active,
          activatedBy := some kid,
          kamID := if r.kamID = none then some kid else r.kamID },
    ?_, ?_, ?_, ?_⟩
  · rw [activateRestaurant, hr]
    simp [hpend, hk, hkam, hnouser]
  · refine ⟨{ r with
        status := RestaurantStatus.active,
        activatedBy := some kid,
        kamID := if r.kamID = none then some kid else r.kamID },
      ?_, rfl, rfl, rfl⟩
    exact getRestaurantByID_updateRestaurant _ rid r _ hr hid
  · simp [countUsersByEmail, hfilter0]
  · refine ⟨{ id := nextUserID db
              restaurantID := r.id
              email := r.contactEmail
              passwordHash := pw
              role := "Admin"
              isActive := true }, ?_, rfl, rfl, rfl, ?_⟩
    · show ((createUser db _).users.filter _) = _
      rw [createUser]
      simp only [List.filter_append, hfilter0, List.nil_append]
      rw [List.filter_cons]
      simp
    · intro hmem
      have hin : ({ id := nextUserID db
                    restaurantID := r.id
                    email := r.contactEmail
                    passwordHash := pw
                    role := "Admin"
                    isActive := true } : User) ∈
          db.users.filter
            (fun v => v.email == r.contactEmail && v.restaurantID == r.id) := by
        rw [List.mem_filter]
        exact ⟨hmem, by simp⟩
      rw [hfilter0] at hin
      simp at hin

/-- C5 witness data: a pending restaurant and the platform KAM activating
it. -/
def dbPendingWithKAM : DBState :=
  { restaurants := [pendingTrattoria]
    users := [{ id := 9, restaurantID := 1, email := "kam@platform.local"
                passwordHash := "x", role := "KAM", isActive := true }] }

/-- C5 witness: the activation theorem applied to the concrete pending
restaurant and KAM user. -/
theorem activateRestaurant_success_spec_witness :
    ∃ db1, activateRestaurant dbPendingWithKAM 2 9 "hash" = Except.ok db1 ∧
      (∃ r1, getRestaurantByID db1 2 = some r1 ∧
        r1.status = RestaurantStatus.active ∧
        r1.activatedBy = some 9 ∧
        r1.kamID = (if pendingTrattoria.kamID = none then some 9
                    else pendingTrattoria.kamID)) ∧
      countUsersByEmail dbPendingWithKAM pendingTrattoria.contactEmail
        pendingTrattoria.id = 0 ∧
      (∃ u, db1.users.filter
          (fun v => v.email == pendingTrattoria.contactEmail &&
            v.restaurantID == pendingTrattoria.id) = [u] ∧
        u.role = "Admin" ∧ u.email = pendingTrattoria.contactEmail ∧
        u.restaurantID = pendingTrattoria.id ∧ u ∉ dbPendingWithKAM.users) :=
  activateRestaurant_success_spec dbPendingWithKAM 2 9 "hash" pendingTrattoria
    { id := 9, restaurantID := 1, email := "kam@platform.local"
      passwordHash := "x", role := "KAM", isActive := true }
    (by decide) (by decide) (by decide) (by decide) (by decide)

/-- C6: activating an already active restaurant yields HTTP 409 with the
conflict message and returns the database unchanged: the service call
fails before any write. -/
theorem activateRestaurant_already_active_conflict (db : DBState)
    (rid uid : Nat) (pw : String) (r : Restaurant)
    (hr : getRestaurantByID db rid = some r)
    (hact : r.status = RestaurantStatus.active) :
    activateRestaurantHandler db rid uid pw =
      { status := 409, errorMsg := some "restaurant is already active"
        db := db } := by
  rw [activateRestaurantHandler, activateRestaurant, hr]
  simp [hact]

/-- C6 witness data: a database whose only tenant is already active. -/
def dbActiveOnly : DBState :=
  { restaurants := [{ pendingTrattoria with status := RestaurantStatus.active }]
    users := [] }

/-- C6 witness: the conflict theorem applied to the concrete active
restaurant. -/
theorem activateRestaurant_already_active_conflict_witness :
    activateRestaurantHandler dbActiveOnly 2 9 "hash" =
      { status := 409, errorMsg := some "restaurant is already active"
        db := dbActiveOnly } :=
  activateRestaurant_already_active_conflict dbActiveOnly 2 9 "hash"
    { pendingTrattoria with status := RestaurantStatus.active }
    (by decide) (by decide)

/-- C10: when the restaurant is not active but a user under its contact
email already exists for it, activation by a KAM stops with the duplicate
admin error, and the error return carries no state change. -/
theorem activateRestaurant_duplicate_admin_rejected (db : DBState)
    (rid kid : Nat) (pw : String) (r : Restaurant) (k u : User)
    (hr : getRestaurantByID db rid = some r)
    (hnact : r.status ≠ RestaurantStatus.active)
    (hk : getUserByID db kid = some k)
    (hkam : k.role = "KAM")
    (hdup : getUserByEmail db r.contactEmail r.id = some u) :
    activateRestaurant db rid kid pw =
      Except.error "admin user already exists for this restaurant" := by
  rw [activateRestaurant, hr]
  simp [hnact, hk, hkam, hdup]

/-- C10 witness data: a pending restaurant already owning a user under its
contact email, plus the platform KAM. -/
def dbPendingWithDupUser : DBState :=
  { restaurants := [pendingTrattoria]
    users := [{ id := 9, restaurantID := 1, email := "kam@platform.local"
                passwordHash := "x", role := "KAM", isActive := true },
              { id := 12, restaurantID := 2, email := "ann@example.com"
                passwordHash := "y", role := "Staff", isActive := true }] }

/-- C10 witness: the duplicate admin theorem applied to the concrete
database. -/
theorem activateRestaurant_duplicate_admin_rejected_witness :
    activateRestaurant dbPendingWithDupUser 2 9 "hash" =
      Except.error "admin user already exists for this restaurant" :=
  activateRestaurant_duplicate_admin_rejected dbPendingWithDupUser 2 9 "hash"
    pendingTrattoria
    { id := 9, restaurantID := 1, email := "kam@platform.local"
      passwordHash := "x", role := "KAM", isActive := true }
    { id := 12, restaurantID := 2, email := "ann@example.com"
      passwordHash := "y", role := "Staff", isActive := true }
    (by decide) (by decide) (by decide) (by decide) (by decide)

/-- Configuration fields read by BootstrapPlatform. -/
structure Config where
  environment : String
  bootstrapAdminEmail : String
  bootstrapAdminPassword : String
deriving DecidableEq

/-- The sentinel restaurant row inserted by BootstrapPlatform when absent. -/
def platformRestaurantRow : Restaurant :=
  { id := 1, name := "Platform Organization"
    email := "platform@system.local", status := RestaurantStatus.active
    kamID := none, activatedBy := none, contactName := "", contactEmail := "" }

/-- The bootstrap admin row created by BootstrapPlatform: a KAM under the
sentinel tenant with the configured email; the bcrypt hash of the
configured or development password enters as pwHash. -/
def bootstrapAdminRow (db : DBState) (cfg : Config) (pwHash : String) : User :=
  { id := nextUserID db, restaurantID := 1
    email := cfg.bootstrapAdminEmail, passwordHash := pwHash
    role := "KAM", isActive := true }

/-- Step 1 of BootstrapPlatform: insert the sentinel tenant row when no
restaurant with the sentinel id exists. -/
def bootstrapSentinel (db : DBState) : DBState :=
  match getRestaurantByID db 1 with
  | some _ => db
  | none => { db with restaurants := db.restaurants ++ [platformRestaurantRow] }

/-- BootstrapPlatform from database/bootstrap.go: insert the sentinel
tenant row when no restaurant with the sentinel id exists, then, when no
KAM-role user exists under the sentinel tenant, create one from the
configured bootstrap credentials, refusing in production when no password
is configured. -/
def bootstrapPlatform (db : DBState) (cfg : Config) (pwHash : String) :
    Except String DBState :=
  match (bootstrapSentinel db).users.find?
      (fun u => u.restaurantID == 1 && u.role == "KAM") with
  | some _ => Except.ok (bootstrapSentinel db)
  | none =>
      if cfg.bootstrapAdminPassword = "" ∧ cfg.environment = "production" then
        Except.error "BOOTSTRAP_ADMIN_PASSWORD is required in production"
      else
        Except.ok { bootstrapSentinel db with
            users := (bootstrapSentinel db).users ++
              [bootstrapAdminRow (bootstrapSentinel db) cfg pwHash] }

/-- Number of restaurant rows carrying the sentinel id. -/
def countSentinelRows (db : DBState) : Nat :=
  (db.restaurants.filter (fun r => r.id == 1)).length

/-- Number of KAM-role users under the sentinel tenant, the population the
bootstrap admin check looks at. -/
def countPlatformKAMs (db : DBState) : Nat :=
  (db.users.filter (fun u => u.restaurantID == 1 && u.role == "KAM")).length

/-- C7 counterexample state: the sentinel tenant exists and two KAM users
already live under it, a state reachable through the KAM creation
endpoint. -/
def dbTwoPlatformKAMs : DBState :=
  { restaurants := [platformRestaurantRow]
    users := [{ id := 1, restaurantID := 1, email := "kam1@platform.local"
                passwordHash := "x", role := "KAM", isActive := true },
              { id := 2, restaurantID := 1, email := "kam2@platform.local"
                passwordHash := "y", role := "KAM", isActive := true }] }

/-- Development configuration used in the bootstrap scenarios. -/
def devConfig : Config :=
  { environment := "development"
    bootstrapAdminEmail := "admin@platform.local"
    bootstrapAdminPassword := "" }

/-- C7 counterexample: from a state that already holds two platform KAM
users, running BootstrapPlatform twice changes nothing and leaves two
platform-role users, not exactly one, so the claim does not hold from
every starting state. -/
theorem bootstrapPlatform_two_kams_counterexample :
    bootstrapPlatform dbTwoPlatformKAMs devConfig "h" =
      Except.ok dbTwoPlatformKAMs ∧
    countPlatformKAMs dbTwoPlatformKAMs = 2 ∧
    countPlatformKAMs dbTwoPlatformKAMs ≠ 1 :=
  ⟨rfl, rfl, by decide⟩

/-- A search that finds nothing filters to the empty list. -/
theorem filter_nil_of_find_none {α : Type} (p : α → Bool) (l : List α)
    (h : l.find? p = none) : l.filter p = [] := by
  rw [List.filter_eq_nil_iff]
  rw [List.find?_eq_none] at h
  exact h

/-- A successful search bounds the match count from below. -/
theorem one_le_filter_length_of_find_some {α : Type} (p : α → Bool)
    (l : List α) (u : α) (h : l.find? p = some u) :
    1 ≤ (l.filter p).length := by
  have hmem : u ∈ l.filter p :=
    List.mem_filter.mpr ⟨List.mem_of_find?_eq_some h, List.find?_some h⟩
  exact List.length_pos.mpr (List.ne_nil_of_mem hmem)

/-- The sentinel step never touches the users table. -/
theorem bootstrapSentinel_users (db : DBState) :
    (bootstrapSentinel db).users = db.users := by
  rw [bootstrapSentinel]
  cases h : getRestaurantByID db 1 <;> simp

/-- The sentinel step yields exactly one sentinel row whenever the start
state holds at most one. -/
theorem bootstrapSentinel_count (db : DBState)
    (hle : countSentinelRows db ≤ 1) :
    countSentinelRows (bootstrapSentinel db) = 1 := by
  cases h : getRestaurantByID db 1 with
  | some r =>
      simp only [bootstrapSentinel, h]
      have h2 := h
      rw [getRestaurantByID] at h2
      have h1 := one_le_filter_length_of_find_some _ _ _ h2
      rw [countSentinelRows] at hle ⊢
      omega
  | none =>
      simp only [bootstrapSentinel, h]
      have h2 := h
      rw [getRestaurantByID] at h2
      rw [countSentinelRows]
      simp only [List.filter_append, filter_nil_of_find_none _ _ h2,
        List.nil_append]
      simp [platformRestaurantRow, List.filter_cons]

/-- A state holding exactly one sentinel row resolves the sentinel lookup. -/
theorem getRestaurantByID_isSome_of_count (db : DBState)
    (h : countSentinelRows db = 1) : ∃ r, getRestaurantByID db 1 = some r := by
  rw [countSentinelRows] at h
  have hne : db.restaurants.filter (fun r => r.id == 1) ≠ [] := by
    intro he
    rw [he] at h
    simp at h
  obtain ⟨x, hx⟩ := List.exists_mem_of_ne_nil _ hne
  obtain ⟨hxin, hxp⟩ := List.mem_filter.mp hx
  have hsome : (db.restaurants.find? (fun r => r.id == 1)).isSome :=
    List.find?_isSome.mpr ⟨x, hxin, hxp⟩
  exact Option.isSome_iff_exists.mp hsome

/-- The sentinel step fixes any state already holding the sentinel row. -/
theorem bootstrapSentinel_fixed (db : DBState)
    (h : countSentinelRows db = 1) : bootstrapSentinel db = db := by
  obtain ⟨r, hr⟩ := getRestaurantByID_isSome_of_count db h
  rw [bootstrapSentinel, hr]

/-- C7 (amended): from any state holding at most one sentinel tenant row
and at most one platform KAM user, a successful BootstrapPlatform run
yields exactly one sentinel row and exactly one platform KAM user and a
second run returns the same state unchanged; in production with no
bootstrap password configured and no platform KAM present, the run fails
with the configuration error and creates nothing. -/
theorem bootstrapPlatform_idempotent :
    (∀ db cfg pwHash db1,
      countSentinelRows db ≤ 1 →
      countPlatformKAMs db ≤ 1 →
      bootstrapPlatform db cfg pwHash = Except.ok db1 →
      countSentinelRows db1 = 1 ∧ countPlatformKAMs db1 = 1 ∧
      bootstrapPlatform db1 cfg pwHash = Except.ok db1) ∧
    (∀ db cfg pwHash,
      countPlatformKAMs db = 0 →
      cfg.environment = "production" →
      cfg.bootstrapAdminPassword = "" →
      bootstrapPlatform db cfg pwHash =
        Except.error "BOOTSTRAP_ADMIN_PASSWORD is required in production") := by
  constructor
  · intro db cfg pwHash db1 hsentle hkamle hok
    rw [bootstrapPlatform] at hok
    cases hu : (bootstrapSentinel db).users.find?
        (fun u => u.restaurantID == 1 && u.role == "KAM") with
    | some u =>
        rw [hu] at hok
        have hdb1 : db1 = bootstrapSentinel db := by
          cases hok
          rfl
        subst hdb1
        have hsc := bootstrapSentinel_count db hsentle
        have hkc : countPlatformKAMs (bootstrapSentinel db) = 1 := by
          have hge := one_le_filter_length_of_find_some _ _ _ hu
          rw [countPlatformKAMs] at hkamle ⊢
          rw [bootstrapSentinel_users] at hge ⊢
          omega
        refine ⟨hsc, hkc, ?_⟩
        rw [bootstrapPlatform, bootstrapSentinel_fixed _ hsc, hu]
    | none =>
        rw [hu] at hok
        by_cases hc : cfg.bootstrapAdminPassword = "" ∧
            cfg.environment = "production"
        · rw [if_pos hc] at hok
          cases hok
        · rw [if_neg hc] at hok
          have hdb1 : db1 = { bootstrapSentinel db with
              users := (bootstrapSentinel db).users ++
                [bootstrapAdminRow (bootstrapSentinel db) cfg pwHash] } := by
            cases hok
            rfl
          subst hdb1
          have hsc0 := bootstrapSentinel_count db hsentle
          have hsc : countSentinelRows { bootstrapSentinel db with
              users := (bootstrapSentinel db).users ++
                [bootstrapAdminRow (bootstrapSentinel db) cfg pwHash] } = 1 := by
            rw [countSentinelRows] at hsc0 ⊢
            exact hsc0
          have hkc : countPlatformKAMs { bootstrapSentinel db with
              users := (bootstrapSentinel db).users ++
                [bootstrapAdminRow (bootstrapSentinel db) cfg pwHash] } = 1 := by
            rw [countPlatformKAMs]
            simp only [List.filter_append, filter_nil_of_find_none _ _ hu,
              List.nil_append]
            simp [bootstrapAdminRow, List.filter_cons]
          refine ⟨hsc, hkc, ?_⟩
          rw [bootstrapPlatform, bootstrapSentinel_fixed _ hsc]
          have hfu : ({ bootstrapSentinel db with
              users := (bootstrapSentinel db).users ++
                [bootstrapAdminRow (bootstrapSentinel db) cfg pwHash] }
                : DBState).users.find?
              (fun u => u.restaurantID == 1 && u.role == "KAM") =
              some (bootstrapAdminRow (bootstrapSentinel db) cfg pwHash) := by
            simp only [List.find?_append, hu, Option.none_or]
            simp [bootstrapAdminRow]
          rw [hfu]
  · intro db cfg pwHash hz henv hpw
    have hfu : (bootstrapSentinel db).users.find?
        (fun u => u.restaurantID == 1 && u.role == "KAM") = none := by
      cases h : (bootstrapSentinel db).users.find?
          (fun u => u.restaurantID == 1 && u.role == "KAM") with
      | none => rfl
      | some u =>
          have hge := one_le_filter_length_of_find_some _ _ _ h
          rw [bootstrapSentinel_users] at hge
          rw [countPlatformKAMs] at hz
          omega
    rw [bootstrapPlatform, hfu, if_pos ⟨hpw, henv⟩]

/-- The state a bootstrap run reaches from the empty database with the
development configuration and password hash h. -/
def dbAfterBootstrap : DBState :=
  { restaurants := [platformRestaurantRow]
    users := [{ id := 1, restaurantID := 1, email := "admin@platform.local"
                passwordHash := "h", role := "KAM", isActive := true }] }

/-- C7 witness: the amended theorem applied to the empty database and the
development configuration: the run reaches a state with exactly one
sentinel row and one platform KAM, and a second run leaves it unchanged. -/
theorem bootstrapPlatform_idempotent_witness :
    countSentinelRows dbAfterBootstrap = 1 ∧
    countPlatformKAMs dbAfterBootstrap = 1 ∧
    bootstrapPlatform dbAfterBootstrap devConfig "h" =
      Except.ok dbAfterBootstrap :=
  bootstrapPlatform_idempotent.1 { restaurants := [], users := [] }
    devConfig "h" dbAfterBootstrap (by decide) (by decide) rfl

/-- The JSON payload of a JWT as a partial record: a field absent from the
token is none. -/
structure TokenPayload where
  userID : Option Nat
  restaurantID : Option Nat
  role : Option String
  email : Option String
deriving DecidableEq

/-- JWTClaims from the auth service: the Go struct the payload is
unmarshalled into, every field total. -/
structure JWTClaims where
  userID : Nat
  restaurantID : Nat
  role : String
  email : String
deriving DecidableEq

/-- JSON unmarshalling of the payload into JWTClaims: a field absent from
the JSON leaves the Go zero value in the struct. -/
def decodeClaims (p : TokenPayload) : JWTClaims :=
  { userID := p.userID.getD 0
    restaurantID := p.restaurantID.getD 0
    role := p.role.getD ""
    email := p.email.getD "" }

/-- Outcome of the RequireAuth middleware: an aborted request with a
status and message, or a request proceeding with the stored claims. -/
inductive AuthOutcome where
  | aborted (status : Nat) (msg : String)
  | proceed (claims : JWTClaims)
deriving DecidableEq

/-- Split a character list on each single space character, accumulating
the current field in reverse. -/
def goSplitSpaceAux : List Char → List Char → List String
  | [], cur => [String.mk cur.reverse]
  | c :: rest, cur =>
      if c = ' ' then String.mk cur.reverse :: goSplitSpaceAux rest []
      else goSplitSpaceAux rest (c :: cur)

/-- The split of a string on single spaces performed by RequireAuth on
the Authorization header, with the semantics of the Go standard library
split on a one-character separator. -/
def goSplitSpace (s : String) : List String :=
  goSplitSpaceAux s.data []

/-- RequireAuth from middleware/auth.go: reject a missing header, reject a
header that does not split into Bearer and a token, reject a token the
validator refuses, and otherwise store the decoded claims and continue.
The validator argument stands for AuthService.ValidateToken, returning
the parsed payload of a token whose signature and expiry check out. -/
def requireAuth (header : Option String)
    (validate : String → Except String TokenPayload) : AuthOutcome :=
  match header with
  | none => AuthOutcome.aborted 401 "authorization header required"
  | some h =>
      let parts := goSplitSpace h
      if parts.length ≠ 2 ∨ parts.headD "" ≠ "Bearer" then
        AuthOutcome.aborted 401 "invalid authorization header format"
      else
        match validate (parts.getD 1 "") with
        | Except.error _ => AuthOutcome.aborted 401 "invalid or expired token"
        | Except.ok payload => AuthOutcome.proceed (decodeClaims payload)

/-- Discriminator of the aborted outcome. -/
def isAborted : AuthOutcome → Bool
  | AuthOutcome.aborted _ _ => true
  | AuthOutcome.proceed _ => false

/-- A validator accepting every token with a fixed payload that lacks the
restaurant id field. -/
def acceptMissingRestaurant : String → Except String TokenPayload :=
  fun _ => Except.ok
    { userID := some 7, restaurantID := none
      role := some "Admin", email := some "a@example.com" }

/-- C8 counterexample: a valid token whose claims lack restaurant_id does
not abort the request: RequireAuth proceeds and the Go zero value 0 is
substituted for the missing restaurant id. -/
theorem requireAuth_missing_field_counterexample :
    requireAuth (some "Bearer tok") acceptMissingRestaurant =
      AuthOutcome.proceed
        { userID := 7, restaurantID := 0, role := "Admin"
          email := "a@example.com" } ∧
    isAborted (requireAuth (some "Bearer tok") acceptMissingRestaurant)
      = false := by
  decide

/-- C8 (amended): RequireAuth aborts only on a missing header, a malformed
header or a rejected token; it checks no individual claim field, so a
valid token proceeds with absent user_id, restaurant_id or role decoded to
the Go zero values 0, 0 and the empty string. -/
theorem requireAuth_zero_defaults (hdr tok : String)
    (validate : String → Except String TokenPayload) (payload : TokenPayload)
    (hparts : goSplitSpace hdr = ["Bearer", tok])
    (hval : validate tok = Except.ok payload) :
    requireAuth (some hdr) validate =
      AuthOutcome.proceed (decodeClaims payload) ∧
    (decodeClaims payload).userID = payload.userID.getD 0 ∧
    (decodeClaims payload).restaurantID = payload.restaurantID.getD 0 ∧
    (decodeClaims payload).role = payload.role.getD "" := by
  refine ⟨?_, rfl, rfl, rfl⟩
  rw [requireAuth]
  simp only [hparts]
  simp [hval]

/-- A token payload lacking both the restaurant id and the role field. -/
def payloadBareUser : TokenPayload :=
  { userID := some 7, restaurantID := none, role := none, email := none }

/-- A validator accepting every token with the bare payload. -/
def acceptBareUser : String → Except String TokenPayload :=
  fun _ => Except.ok payloadBareUser

/-- C8 witness: the amended theorem applied to a concrete header and a
validator returning a payload with no restaurant id and no role. -/
theorem requireAuth_zero_defaults_witness :
    requireAuth (some "Bearer tok") acceptBareUser =
      AuthOutcome.proceed (decodeClaims payloadBareUser) ∧
    (decodeClaims payloadBareUser).userID = payloadBareUser.userID.getD 0 ∧
    (decodeClaims payloadBareUser).restaurantID =
      payloadBareUser.restaurantID.getD 0 ∧
    (decodeClaims payloadBareUser).role = payloadBareUser.role.getD "" :=
  requireAuth_zero_defaults "Bearer tok" "tok" acceptBareUser payloadBareUser
    (by decide) rfl
